import Mathlib

/-!
Verification development for `src/evidence/experimental_evidence.py`.

The module is a single Python file.  Its behaviour is dominated by Python
name resolution: most names it references are never defined, so what the
claims describe are NameError / AttributeError outcomes, the shape of the
one `@dataclass` container, and the absence of control flow, error
handling and I/O.  We embed the module shallowly:

* method bodies become lists of `Step`s, the global-name lookups,
  local-variable reads, attribute reads and assignments that CPython
  performs, in evaluation order (right-hand sides before assignment
  targets, callables before their arguments);
* the module top level becomes a list of `TopStmt`s executed in order,
  where evaluating a class body evaluates the unquoted annotations of its
  fields and of its methods' parameters (CPython evaluates those at class
  creation / `def` time; quoted annotations stay unevaluated strings);
* the `@dataclass` + `__slots__` machinery becomes an explicit
  slot-checked attribute store with the generated `__init__` modelled as
  field-by-field `setattr`.

`Step` and the results carry constructors for raising, try/except,
branching, loops and I/O calls even though the source uses none of them,
so that their absence is a provable property of the embedded AST rather
than an artifact of the embedding.
-/

namespace PyEvidence

/-- Outcome of evaluating a piece of Python code: normal completion,
an unbound global name (`NameError`), a missing attribute
(`AttributeError`), or an explicitly raised exception. -/
inductive PyResult (α : Type) where
  | ok : α → PyResult α
  | nameError : String → PyResult α
  | attributeError : String → PyResult α
  | raised : PyResult α
deriving DecidableEq, Repr

/-- True exactly on the two name-resolution failures: an unbound name or
a missing attribute. -/
def PyResult.failsUnbound {α : Type} : PyResult α → Bool
  | .nameError _ => true
  | .attributeError _ => true
  | _ => false

/-- True exactly on normal completion. -/
def PyResult.isOk {α : Type} : PyResult α → Bool
  | .ok _ => true
  | _ => false

/-- One elementary action of a method body, in CPython evaluation order.
The last five constructors (raise, try, branch, loop, I/O call) never
occur in the embedded source; they exist so that their absence is a
statement about the program. -/
inductive Step where
  | globalRef (n : String)
  | localRef (n : String)
  | selfAttr (n : String)
  | objAttr (n : String)
  | assignLocal (n : String)
  | assignSelfAttr (n : String)
  | assignObjAttr (n : String)
  | setItem (key : String)
  | raiseStep
  | tryStep
  | branchStep
  | loopStep
  | ioCall (libName : String) (fn : String)
deriving DecidableEq, Repr

/-- Python builtins the module's annotations touch.  Only `float`
(line 16 of the source) is ever needed. -/
def pyBuiltins : List String := ["float"]

/-- Run a method body: thread the set of bound local names, fail on the
first unbound global or missing attribute.  `env` is the set of module
globals; `oracle` tells which attribute names exist on the (otherwise
opaque) objects the body touches, so failure theorems quantified over
`oracle` hold for every possible instance. -/
def runSteps (env : List String) (oracle : String → Bool) :
    List String → List Step → PyResult Unit
  | _, [] => .ok ()
  | locals, s :: rest =>
    match s with
    | .globalRef n =>
        if n ∈ env ∨ n ∈ pyBuiltins then runSteps env oracle locals rest
        else .nameError n
    | .localRef n =>
        if n ∈ locals then runSteps env oracle locals rest else .nameError n
    | .selfAttr n =>
        if oracle n then runSteps env oracle locals rest
        else .attributeError n
    | .objAttr n =>
        if oracle n then runSteps env oracle locals rest
        else .attributeError n
    | .assignLocal n => runSteps env oracle (n :: locals) rest
    | .assignSelfAttr _ => runSteps env oracle locals rest
    | .assignObjAttr _ => runSteps env oracle locals rest
    | .setItem _ => runSteps env oracle locals rest
    | .raiseStep => .raised
    | .tryStep => runSteps env oracle locals rest
    | .branchStep => runSteps env oracle locals rest
    | .loopStep => runSteps env oracle locals rest
    | .ioCall _ _ => runSteps env oracle locals rest

/-- Evaluating a bare global name, as an expression. -/
def lookupGlobal (env : List String) (n : String) : PyResult Unit :=
  if n ∈ env ∨ n ∈ pyBuiltins then .ok () else .nameError n

/-- An annotation expression.  CPython evaluates unquoted annotations of
dataclass fields at class-creation time and of `def` parameters at
definition time; quoted ones are plain strings and are not evaluated.
`subscriptRef b a` is `b['a']` (only the base name is looked up). -/
inductive AnnExpr where
  | strLit (s : String)
  | nameRef (n : String)
  | attrRef (base attrName : String)
  | subscriptRef (base arg : String)
deriving DecidableEq, Repr

/-- A statement of a class body. -/
inductive ClassStmt where
  | field (fname : String) (ann : AnnExpr)
  | slotsDecl (names : List String)
  | defMethod (mname : String) (anns : List AnnExpr)
deriving DecidableEq, Repr

/-- A top-level statement of the module. -/
inductive TopStmt where
  | moduleImport (n : String)
  | classDef (cname : String) (body : List ClassStmt)
deriving DecidableEq, Repr

/-- First unbound name hit when evaluating an annotation, if any. -/
def evalAnn (env : List String) : AnnExpr → Option String
  | .strLit _ => none
  | .nameRef n => if n ∈ env ∨ n ∈ pyBuiltins then none else some n
  | .attrRef b _ => if b ∈ env ∨ b ∈ pyBuiltins then none else some b
  | .subscriptRef b _ => if b ∈ env ∨ b ∈ pyBuiltins then none else some b

/-- First unbound name hit across a list of annotations, in order. -/
def evalAnns (env : List String) : List AnnExpr → Option String
  | [] => none
  | a :: rest =>
    match evalAnn env a with
    | some n => some n
    | none => evalAnns env rest

/-- Execute a class body: evaluate each field annotation and each
method's annotations in order; return the first unbound name, if any. -/
def execClassBody (env : List String) : List ClassStmt → Option String
  | [] => none
  | .field _ ann :: rest =>
    match evalAnn env ann with
    | some n => some n
    | none => execClassBody env rest
  | .slotsDecl _ :: rest => execClassBody env rest
  | .defMethod _ anns :: rest =>
    match evalAnns env anns with
    | some n => some n
    | none => execClassBody env rest

/-- Execute the module top level.  Returns the globals bound so far and,
when a class body raises, the class being defined together with the
unbound name; execution stops there, as a failed import does. -/
def execModule (env : List String) :
    List TopStmt → List String × Option (String × String)
  | [] => (env, none)
  | .moduleImport n :: rest => execModule (env ++ [n]) rest
  | .classDef c body :: rest =>
    match execClassBody env body with
    | some missing => (env, some (c, missing))
    | none => execModule (env ++ [c]) rest

/-- All names a fully successful run of the module top level would bind:
the imports and the three class names.  The failure theorems below hold
even under this best-case environment. -/
def topLevelNames : List TopStmt → List String
  | [] => []
  | .moduleImport n :: rest => n :: topLevelNames rest
  | .classDef c _ :: rest => c :: topLevelNames rest

/-- Names of the classes a statement list defines. -/
def definedClassNames : List TopStmt → List String
  | [] => []
  | .moduleImport _ :: rest => definedClassNames rest
  | .classDef c _ :: rest => c :: definedClassNames rest

/-- Field names of a class body, in declaration order. -/
def classFieldNames (body : List ClassStmt) : List String :=
  body.filterMap fun s =>
    match s with
    | .field f _ => some f
    | _ => none

/-- Field names together with their annotations, in declaration order. -/
def classFieldAnns (body : List ClassStmt) : List (String × AnnExpr) :=
  body.filterMap fun s =>
    match s with
    | .field f a => some (f, a)
    | _ => none

/-- Method names a class body defines. -/
def classMethods (body : List ClassStmt) : List String :=
  body.filterMap fun s =>
    match s with
    | .defMethod m _ => some m
    | _ => none

/-- The `__slots__` list of a class body (empty if none). -/
def slotsOf : List ClassStmt → List String
  | [] => []
  | .slotsDecl ns :: _ => ns
  | _ :: rest => slotsOf rest

/-! ## The embedded module

`src/evidence/experimental_evidence.py`, statement by statement.
Line numbers refer to that file. -/

/-- Body of `QuantumEvidence.to_report` (lines 30-46).  `self` methods
that the body calls are represented by the attribute lookup that fetches
them; none of those calls is ever reached, since line 32 already fails. -/
def toReportBody : List Step := [
  .globalRef "QuantumReport",                    -- line 32: QuantumReport()
  .assignLocal "report",
  .selfAttr "analyze_consciousness",             -- line 35, RHS first
  .localRef "report",
  .assignObjAttr "consciousness_analysis",
  .selfAttr "map_exploitation_potential",        -- line 38
  .localRef "report",
  .assignObjAttr "exploitation_potential",
  .selfAttr "calculate_certainty_metrics",       -- line 41
  .localRef "report",
  .assignObjAttr "certainty_metrics",
  .selfAttr "generate_behavioral_signatures",    -- line 44
  .localRef "report",
  .assignObjAttr "behavioral_signatures",
  .localRef "report" ]                           -- line 46: return report

/-- Body of `QuantumEvidence.analyze_consciousness` (lines 48-64). -/
def analyzeConsciousnessBody : List Step := [
  .globalRef "ConsciousnessAnalysis",            -- line 50
  .assignLocal "analysis",
  .selfAttr "extract_belief_system",             -- line 53
  .localRef "analysis",
  .assignObjAttr "belief_system",
  .selfAttr "map_cognitive_biases",              -- line 56
  .localRef "analysis",
  .assignObjAttr "cognitive_biases",
  .selfAttr "identify_reasoning_patterns",       -- line 59
  .localRef "analysis",
  .assignObjAttr "reasoning_patterns",
  .selfAttr "detect_consciousness_anomalies",    -- line 62
  .localRef "analysis",
  .assignObjAttr "consciousness_anomalies",
  .localRef "analysis" ]                         -- line 64

/-- Body of `QuantumEvidenceCollector.__init__` (lines 68-71). -/
def collectorInitBody : List Step := [
  .globalRef "QuantumObserver",                  -- line 69
  .assignSelfAttr "quantum_observer",
  .globalRef "RealityMonitor",                   -- line 70
  .assignSelfAttr "reality_monitor",
  .globalRef "ConsciousnessProbe",               -- line 71
  .assignSelfAttr "consciousness_probe" ]

/-- Body of `QuantumEvidenceCollector.collect_evidence` (lines 73-124).
Callables are evaluated before their arguments, as CPython does. -/
def collectEvidenceBody : List Step := [
  .selfAttr "quantum_observer",                  -- line 78
  .objAttr "observe",
  .localRef "target",                            -- line 79
  .globalRef "ObservationMode",                  -- line 80
  .objAttr "NON_DEMOLITION",
  .assignLocal "quantum_observations",
  .selfAttr "consciousness_probe",               -- line 84
  .objAttr "probe",
  .localRef "target",                            -- line 85
  .objAttr "consciousness",
  .localRef "collection_params",                 -- line 86
  .objAttr "probe_depth",
  .assignLocal "consciousness_state",
  .selfAttr "reality_monitor",                   -- line 90
  .objAttr "detect_gaps",
  .localRef "target",                            -- line 91
  .objAttr "reality_model",
  .localRef "quantum_observations",              -- line 92
  .assignLocal "reality_gaps",
  .selfAttr "discover_cognitive_contradictions", -- line 96
  .localRef "consciousness_state",               -- line 97
  .localRef "reality_gaps",                      -- line 98
  .assignLocal "contradictions",
  .selfAttr "calculate_quantum_certainty",       -- line 102
  .localRef "quantum_observations",              -- line 103
  .localRef "consciousness_state",               -- line 104
  .assignLocal "certainty",
  .selfAttr "analyze_entanglement_correlation",  -- line 108
  .localRef "quantum_observations",              -- line 109
  .assignLocal "entanglement",
  .selfAttr "detect_temporal_anomalies",         -- line 113
  .localRef "quantum_observations",              -- line 114
  .assignLocal "temporal_anomalies",
  .globalRef "QuantumEvidence",                  -- line 117
  .localRef "consciousness_state",               -- line 118
  .localRef "reality_gaps",                      -- line 119
  .localRef "contradictions",                    -- line 120
  .localRef "certainty",                         -- line 121
  .localRef "entanglement",                      -- line 122
  .localRef "temporal_anomalies" ]               -- line 123

/-- Body of `QuantumReportGenerator.generate_report` (lines 128-158). -/
def generateReportBody : List Step := [
  .globalRef "Report",                           -- line 132: Report()
  .assignLocal "report",
  .selfAttr "generate_consciousness_section",    -- lines 135-136, RHS first
  .localRef "evidence",
  .objAttr "consciousness_state",
  .localRef "report",
  .objAttr "sections",
  .setItem "consciousness_analysis",
  .selfAttr "generate_reality_gap_section",      -- lines 139-140
  .localRef "evidence",
  .objAttr "reality_gaps",
  .localRef "report",
  .objAttr "sections",
  .setItem "reality_gaps",
  .selfAttr "generate_contradictions_section",   -- lines 143-144
  .localRef "evidence",
  .objAttr "cognitive_contradictions",
  .localRef "report",
  .objAttr "sections",
  .setItem "cognitive_contradictions",
  .selfAttr "generate_quantum_metrics_section",  -- lines 147-148
  .localRef "evidence",
  .localRef "report",
  .objAttr "sections",
  .setItem "quantum_metrics",
  .selfAttr "generate_exploitation_recommendations", -- lines 151-152
  .localRef "evidence",
  .localRef "report",
  .objAttr "sections",
  .setItem "exploitation_recommendations",
  .selfAttr "generate_behavioral_signatures_section", -- lines 155-156
  .localRef "evidence",
  .localRef "report",
  .objAttr "sections",
  .setItem "behavioral_signatures",
  .localRef "report" ]                           -- line 158

/-- Body of `QuantumReportGenerator.generate_consciousness_section`
(lines 160-188).  The string arguments of `add_subsection` are literals
and need no lookup. -/
def generateConsciousnessSectionBody : List Step := [
  .globalRef "ReportSection",                    -- line 163
  .assignLocal "section",
  .localRef "section",                           -- lines 166-169
  .objAttr "add_subsection",
  .selfAttr "map_belief_system",
  .localRef "state",
  .objAttr "beliefs",
  .localRef "section",                           -- lines 172-175
  .objAttr "add_subsection",
  .selfAttr "analyze_cognitive_biases",
  .localRef "state",
  .objAttr "biases",
  .localRef "section",                           -- lines 178-181
  .objAttr "add_subsection",
  .selfAttr "analyze_reasoning_patterns",
  .localRef "state",
  .objAttr "reasoning",
  .localRef "section",                           -- lines 184-187
  .objAttr "add_subsection",
  .selfAttr "identify_consciousness_anomalies",
  .localRef "state",
  .objAttr "anomalies",
  .localRef "section" ]                          -- line 188

/-- All six method bodies of the module. -/
def allMethodBodies : List (List Step) := [
  toReportBody,
  analyzeConsciousnessBody,
  collectorInitBody,
  collectEvidenceBody,
  generateReportBody,
  generateConsciousnessSectionBody ]

/-- Class body of `QuantumEvidence` (lines 10-64): six annotated fields,
the `__slots__` list (lines 21-28), two methods whose annotations are
quoted strings. -/
def quantumEvidenceBody : List ClassStmt := [
  .field "consciousness_state" (.strLit "ConsciousnessState"),      -- line 13
  .field "reality_gaps" (.subscriptRef "List" "RealityGap"),        -- line 14
  .field "cognitive_contradictions"
    (.subscriptRef "List" "CognitiveContradiction"),                -- line 15
  .field "quantum_certainty" (.nameRef "float"),                    -- line 16
  .field "entanglement_correlation" (.attrRef "np" "ndarray"),      -- line 17
  .field "temporal_anomalies" (.subscriptRef "List" "TemporalAnomaly"), -- line 18
  .slotsDecl ["consciousness_state", "reality_gaps",
    "cognitive_contradictions", "quantum_certainty",
    "entanglement_correlation", "temporal_anomalies"],              -- lines 21-28
  .defMethod "to_report" [.strLit "QuantumReport"],                 -- line 30
  .defMethod "analyze_consciousness" [.strLit "ConsciousnessAnalysis"] ] -- line 48

/-- Class body of `QuantumEvidenceCollector` (lines 66-124).
`collect_evidence` has the quoted annotation `'TargetSystem'`, the
unquoted `CollectionParams` and the unquoted return `QuantumEvidence`,
evaluated in that order at `def` time. -/
def quantumEvidenceCollectorBody : List ClassStmt := [
  .defMethod "__init__" [],                                         -- line 68
  .defMethod "collect_evidence"
    [.strLit "TargetSystem", .nameRef "CollectionParams",
     .nameRef "QuantumEvidence"] ]                                  -- lines 73-75

/-- Class body of `QuantumReportGenerator` (lines 126-188): all four
annotations of `generate_report` and both of
`generate_consciousness_section` are unquoted. -/
def quantumReportGeneratorBody : List ClassStmt := [
  .defMethod "generate_report"
    [.nameRef "QuantumEvidence", .nameRef "ReportFormat",
     .nameRef "Report"],                                            -- lines 128-130
  .defMethod "generate_consciousness_section"
    [.nameRef "ConsciousnessState", .nameRef "ReportSection"] ]     -- lines 160-161

/-- The module top level (lines 1-188): the seven import statements
binding `hashlib`, `json`, `time`, `dataclass`, the four `typing` names,
`np` and `signal`, then the three class definitions in order. -/
def experimentalEvidenceModule : List TopStmt := [
  .moduleImport "hashlib",                       -- line 2
  .moduleImport "json",                          -- line 3
  .moduleImport "time",                          -- line 4
  .moduleImport "dataclass",                     -- line 5
  .moduleImport "Dict",                          -- line 6
  .moduleImport "List",
  .moduleImport "Any",
  .moduleImport "Optional",
  .moduleImport "np",                            -- line 7
  .moduleImport "signal",                        -- line 8
  .classDef "QuantumEvidence" quantumEvidenceBody,
  .classDef "QuantumEvidenceCollector" quantumEvidenceCollectorBody,
  .classDef "QuantumReportGenerator" quantumReportGeneratorBody ]

/-- Every global name the module could ever bind at top level.  The
failure theorems use this as the most generous possible environment. -/
def allTopLevelNames : List String :=
  topLevelNames experimentalEvidenceModule

/-! ## Slotted objects and the dataclass-generated constructor

`QuantumEvidence` is a `@dataclass` whose class body sets `__slots__` to
its six field names, so its instances have no `__dict__`: `setattr`
succeeds only on a slot name and raises `AttributeError` otherwise.  The
generated `__init__` takes one argument per field, in field order, and
assigns each to the same-named attribute. -/

/-- `setattr` on an instance of a class with `__slots__` and no
`__dict__`.  Values of any one type `V`; CPython checks no types. -/
def setattrSlots {V : Type} (slots : List String) (obj : List (String × V))
    (n : String) (v : V) : PyResult (List (String × V)) :=
  if n ∈ slots then .ok ((n, v) :: obj) else .attributeError n

/-- `getattr` on the instance state. -/
def getattrObj {V : Type} (obj : List (String × V)) (n : String) :
    PyResult V :=
  match obj.lookup n with
  | some v => .ok v
  | none => .attributeError n

/-- The field-by-field assignments of a dataclass-generated `__init__`,
starting from instance state `obj`. -/
def dataclassInitFrom {V : Type} (slots : List String)
    (obj : List (String × V)) : List (String × V) → PyResult (List (String × V))
  | [] => .ok obj
  | (f, v) :: rest =>
    match setattrSlots slots obj f v with
    | .ok obj2 => dataclassInitFrom slots obj2 rest
    | .nameError n => .nameError n
    | .attributeError n => .attributeError n
    | .raised => .raised

/-- The dataclass-generated `__init__`: pair the declared fields with the
positional arguments and assign each in order. -/
def dataclassInit {V : Type} (slots : List String) (fields : List String)
    (args : List V) : PyResult (List (String × V)) :=
  dataclassInitFrom slots [] (fields.zip args)

/-- The six field names of `QuantumEvidence`, from the class body. -/
def qeFieldNames : List String := classFieldNames quantumEvidenceBody

/-- The `__slots__` list of `QuantumEvidence`, from the class body. -/
def quantumEvidenceSlots : List String := slotsOf quantumEvidenceBody

/-! ## Syntactic analyses used by the absence claims -/

/-- Global names a body looks up, in order. -/
def collectGlobals (body : List Step) : List String :=
  body.filterMap fun s =>
    match s with
    | .globalRef n => some n
    | _ => none

/-- Attribute names a body looks up on `self`, in order. -/
def collectSelfAttrs (body : List Step) : List String :=
  body.filterMap fun s =>
    match s with
    | .selfAttr n => some n
    | _ => none

/-- A raise statement or a try/except construct. -/
def stepIsErrorHandling : Step → Bool
  | .raiseStep => true
  | .tryStep => true
  | _ => false

/-- A branch or a loop. -/
def stepIsControlFlow : Step → Bool
  | .branchStep => true
  | .loopStep => true
  | _ => false

/-- A call into an imported library (the only way the module could do
I/O, hashing, serialisation or clock reads). -/
def stepIsLibCall : Step → Bool
  | .ioCall _ _ => true
  | _ => false

/-- A body is straight-line when it has no branch and no loop. -/
def straightLine (body : List Step) : Bool :=
  body.all fun s => !stepIsControlFlow s

/-- A body neither raises nor catches. -/
def noErrorHandling (body : List Step) : Bool :=
  body.all fun s => !stepIsErrorHandling s

/-- A body makes no library call: its only actions are name lookups and
attribute reads and assignments. -/
def noLibCalls (body : List Step) : Bool :=
  body.all fun s => !stepIsLibCall s

/-- Base names an annotation evaluates (none for quoted annotations). -/
def annBaseNames : AnnExpr → List String
  | .strLit _ => []
  | .nameRef n => [n]
  | .attrRef b _ => [b]
  | .subscriptRef b _ => [b]

/-- All global names the annotations of one class body evaluate. -/
def classAnnRefs (body : List ClassStmt) : List String :=
  body.flatMap fun s =>
    match s with
    | .field _ a => annBaseNames a
    | .slotsDecl _ => []
    | .defMethod _ anns => anns.flatMap annBaseNames

/-- All global names the module annotations evaluate. -/
def moduleAnnRefs (stmts : List TopStmt) : List String :=
  stmts.flatMap fun s =>
    match s with
    | .moduleImport _ => []
    | .classDef _ body => classAnnRefs body

/-- Every global name the module references after the import statements:
the globals its method bodies look up plus the unquoted annotations. -/
def allReferencedGlobals : List String :=
  (allMethodBodies.flatMap collectGlobals) ++
    moduleAnnRefs experimentalEvidenceModule

/-- The thirteen placeholder type names of the specification. -/
def thirteenNames : List String := [
  "ConsciousnessState", "RealityGap", "CognitiveContradiction",
  "TemporalAnomaly", "QuantumObserver", "RealityMonitor",
  "ConsciousnessProbe", "ObservationMode", "TargetSystem",
  "CollectionParams", "ReportFormat", "Report", "ReportSection" ]

/-! ## Claims -/

/-- Claim C1: calling any of the five public methods (`to_report`,
`analyze_consciousness`, `collect_evidence`, `generate_report`,
`generate_consciousness_section`) fails with an unbound-name or
missing-attribute error before producing a return value, for every
instance (any attribute oracle) and under any global environment that,
like the module's, lacks the five undefined names the bodies touch
first. -/
theorem claim_C1_methods_never_return (env : List String)
    (oracle : String → Bool)
    (h1 : "QuantumReport" ∉ env) (h2 : "ConsciousnessAnalysis" ∉ env)
    (h3 : "ObservationMode" ∉ env) (h4 : "Report" ∉ env)
    (h5 : "ReportSection" ∉ env) :
    runSteps env oracle [] toReportBody = .nameError "QuantumReport" ∧
    runSteps env oracle [] analyzeConsciousnessBody =
      .nameError "ConsciousnessAnalysis" ∧
    (runSteps env oracle ["target", "collection_params"]
      collectEvidenceBody).failsUnbound = true ∧
    runSteps env oracle ["evidence", "report_format"] generateReportBody =
      .nameError "Report" ∧
    runSteps env oracle ["state"] generateConsciousnessSectionBody =
      .nameError "ReportSection" := by
  refine ⟨?_, ?_, ?_, ?_, ?_⟩
  · simp [toReportBody, runSteps, pyBuiltins, h1]
  · simp [analyzeConsciousnessBody, runSteps, pyBuiltins, h2]
  · cases hq : oracle "quantum_observer" <;>
      cases ho : oracle "observe" <;>
        simp [collectEvidenceBody, runSteps, pyBuiltins, h3, hq, ho,
          PyResult.failsUnbound]
  · simp [generateReportBody, runSteps, pyBuiltins, h4]
  · simp [generateConsciousnessSectionBody, runSteps, pyBuiltins, h5]

/-- Claim C1, witnessed at the module's own best-case environment and an
instance carrying every attribute. -/
theorem claim_C1_witness :
    runSteps allTopLevelNames (fun _ => true) [] toReportBody =
      .nameError "QuantumReport" ∧
    runSteps allTopLevelNames (fun _ => true) [] analyzeConsciousnessBody =
      .nameError "ConsciousnessAnalysis" ∧
    (runSteps allTopLevelNames (fun _ => true) ["target", "collection_params"]
      collectEvidenceBody).failsUnbound = true ∧
    runSteps allTopLevelNames (fun _ => true) ["evidence", "report_format"]
      generateReportBody = .nameError "Report" ∧
    runSteps allTopLevelNames (fun _ => true) ["state"]
      generateConsciousnessSectionBody = .nameError "ReportSection" :=
  claim_C1_methods_never_return allTopLevelNames (fun _ => true)
    (by decide) (by decide) (by decide) (by decide) (by decide)

/-- Claim C2: executing the module top level fails while evaluating the
class body of `QuantumEvidenceCollector`, on the unquoted annotation
`CollectionParams`; neither `QuantumEvidenceCollector` nor
`QuantumReportGenerator` is ever bound.  Had the interpreter reached
`QuantumReportGenerator`, its body would likewise fail on the unquoted
`ReportFormat`, and `Report` is likewise an unbound annotation. -/
theorem claim_C2_import_fails :
    execModule [] experimentalEvidenceModule =
      (["hashlib", "json", "time", "dataclass", "Dict", "List", "Any",
        "Optional", "np", "signal", "QuantumEvidence"],
       some ("QuantumEvidenceCollector", "CollectionParams")) ∧
    "QuantumEvidenceCollector" ∉ (execModule [] experimentalEvidenceModule).1 ∧
    "QuantumReportGenerator" ∉ (execModule [] experimentalEvidenceModule).1 ∧
    execClassBody (execModule [] experimentalEvidenceModule).1
      quantumReportGeneratorBody = some "ReportFormat" ∧
    evalAnn (execModule [] experimentalEvidenceModule).1 (.nameRef "Report") =
      some "Report" := by
  decide

/-- Claim C3: none of the thirteen placeholder type names is bound by any
top-level statement of the module, so evaluating any of them yields an
unbound-name error; in particular `__init__` fails on `QuantumObserver`
and `collect_evidence` fails on `ObservationMode`. -/
theorem claim_C3_thirteen_names_undefined :
    (∀ n ∈ thirteenNames,
      n ∉ allTopLevelNames ∧ n ∉ pyBuiltins ∧
      lookupGlobal allTopLevelNames n = .nameError n) ∧
    runSteps allTopLevelNames (fun _ => true) [] collectorInitBody =
      .nameError "QuantumObserver" ∧
    runSteps allTopLevelNames (fun _ => true) ["target", "collection_params"]
      collectEvidenceBody = .nameError "ObservationMode" := by
  decide

/-- Claim C3, witnessed at `QuantumObserver`. -/
theorem claim_C3_witness :
    "QuantumObserver" ∈ thirteenNames ∧
    ("QuantumObserver" ∉ allTopLevelNames ∧ "QuantumObserver" ∉ pyBuiltins ∧
      lookupGlobal allTopLevelNames "QuantumObserver" =
        .nameError "QuantumObserver") :=
  ⟨by decide, claim_C3_thirteen_names_undefined.1 "QuantumObserver" (by decide)⟩

/-- Claim C4: `QuantumEvidence` declares exactly six fields, in order
`consciousness_state`, `reality_gaps`, `cognitive_contradictions`,
`quantum_certainty : float`, `entanglement_correlation : np.ndarray`,
`temporal_anomalies`, and the dataclass-generated constructor takes
exactly these six values, in this order, storing each. -/
theorem claim_C4_quantum_evidence_fields :
    classFieldAnns quantumEvidenceBody = [
      ("consciousness_state", .strLit "ConsciousnessState"),
      ("reality_gaps", .subscriptRef "List" "RealityGap"),
      ("cognitive_contradictions",
        .subscriptRef "List" "CognitiveContradiction"),
      ("quantum_certainty", .nameRef "float"),
      ("entanglement_correlation", .attrRef "np" "ndarray"),
      ("temporal_anomalies", .subscriptRef "List" "TemporalAnomaly") ] ∧
    qeFieldNames.length = 6 ∧
    ∀ (V : Type) (a b c d e f : V),
      dataclassInit quantumEvidenceSlots qeFieldNames [a, b, c, d, e, f] =
        .ok [("temporal_anomalies", f), ("entanglement_correlation", e),
             ("quantum_certainty", d), ("cognitive_contradictions", c),
             ("reality_gaps", b), ("consciousness_state", a)] :=
  ⟨by decide, by decide, fun V a b c d e f => rfl⟩

/-- Claim C4, witnessed with six concrete values. -/
theorem claim_C4_witness :
    dataclassInit quantumEvidenceSlots qeFieldNames
      ([10, 20, 30, 40, 50, 60] : List Nat) =
      .ok [("temporal_anomalies", 60), ("entanglement_correlation", 50),
           ("quantum_certainty", 40), ("cognitive_contradictions", 30),
           ("reality_gaps", 20), ("consciousness_state", 10)] :=
  claim_C4_quantum_evidence_fields.2.2 Nat 10 20 30 40 50 60

/-- Claim C5 counterexample: `Report` and `ReportSection` are not
declarations of the source at all — no class of the module bears either
name, and evaluating either name yields an unbound-name error, so
`Report()` and `ReportSection(title=...)` cannot construct anything. -/
theorem claim_C5_counterexample :
    "Report" ∉ definedClassNames experimentalEvidenceModule ∧
    "ReportSection" ∉ definedClassNames experimentalEvidenceModule ∧
    "Report" ∉ allTopLevelNames ∧
    "ReportSection" ∉ allTopLevelNames ∧
    lookupGlobal allTopLevelNames "Report" = .nameError "Report" ∧
    lookupGlobal allTopLevelNames "ReportSection" =
      .nameError "ReportSection" := by
  decide

/-- Claim C5 (amended): `Report` and `ReportSection` are undefined names,
not declarations; the uses `Report()` in `generate_report` and
`ReportSection(title=...)` in `generate_consciousness_section` fail
immediately with unbound-name errors instead of constructing objects. -/
theorem claim_C5_report_types_undefined :
    "Report" ∉ allTopLevelNames ∧
    "ReportSection" ∉ allTopLevelNames ∧
    runSteps allTopLevelNames (fun _ => true) ["evidence", "report_format"]
      generateReportBody = .nameError "Report" ∧
    runSteps allTopLevelNames (fun _ => true) ["state"]
      generateConsciousnessSectionBody = .nameError "ReportSection" := by
  decide

/-- Claim C6: no method body raises or catches, none branches (so none
validates an input), and the `QuantumEvidence` constructor accepts any
six values — in particular any `quantum_certainty` outside `[0, 1]`. -/
theorem claim_C6_no_error_handling :
    allMethodBodies.all noErrorHandling = true ∧
    allMethodBodies.all straightLine = true ∧
    ∀ (v1 v2 v3 qc v5 v6 : ℚ), qc < 0 ∨ 1 < qc →
      (dataclassInit quantumEvidenceSlots qeFieldNames
        [v1, v2, v3, qc, v5, v6]).isOk = true :=
  ⟨by decide, by decide, fun v1 v2 v3 qc v5 v6 _ => rfl⟩

/-- Claim C6, witnessed at `quantum_certainty = 2`. -/
theorem claim_C6_witness :
    ((2 : ℚ) < 0 ∨ (1 : ℚ) < 2) ∧
    (dataclassInit quantumEvidenceSlots qeFieldNames
      [(0 : ℚ), 0, 0, 2, 0, 0]).isOk = true :=
  ⟨Or.inr (by norm_num),
    claim_C6_no_error_handling.2.2 0 0 0 2 0 0 (Or.inr (by norm_num))⟩

/-- Claim C7 counterexample: not every referenced type and method is
undefined — `QuantumEvidence` is referenced (line 117 and the
annotations of lines 75 and 129) and is defined by the module, and
`analyze_consciousness` is referenced by `to_report` (line 35) and
defined by the class. -/
theorem claim_C7_counterexample :
    "QuantumEvidence" ∈ allReferencedGlobals ∧
    "QuantumEvidence" ∈ allTopLevelNames ∧
    "analyze_consciousness" ∈ collectSelfAttrs toReportBody ∧
    "analyze_consciousness" ∈ classMethods quantumEvidenceBody := by
  decide

/-- Claim C7 (amended): every type and method the module references is
undefined except the module's own declarations — the class
`QuantumEvidence` and the methods `analyze_consciousness` and
`generate_consciousness_section` — and the imported or builtin
annotation names `float`, `np`, `List`; and since every method still
fails before returning, no operation completes to exhibit an
input/output contract. -/
theorem claim_C7_only_own_names_defined :
    (allReferencedGlobals.filter
      (fun n => allTopLevelNames.contains n || pyBuiltins.contains n)).dedup
      = ["float", "np", "List", "QuantumEvidence"] ∧
    ((collectSelfAttrs toReportBody ++
        collectSelfAttrs analyzeConsciousnessBody).filter
      (fun n => (classMethods quantumEvidenceBody).contains n))
      = ["analyze_consciousness"] ∧
    ((collectSelfAttrs generateReportBody ++
        collectSelfAttrs generateConsciousnessSectionBody).filter
      (fun n => (classMethods quantumReportGeneratorBody).contains n))
      = ["generate_consciousness_section"] ∧
    ((collectSelfAttrs collectorInitBody ++
        collectSelfAttrs collectEvidenceBody).filter
      (fun n => (classMethods quantumEvidenceCollectorBody).contains n))
      = [] ∧
    (runSteps allTopLevelNames (fun _ => true) []
      toReportBody).failsUnbound = true ∧
    (runSteps allTopLevelNames (fun _ => true) []
      analyzeConsciousnessBody).failsUnbound = true ∧
    (runSteps allTopLevelNames (fun _ => true) []
      collectorInitBody).failsUnbound = true ∧
    (runSteps allTopLevelNames (fun _ => true) ["target", "collection_params"]
      collectEvidenceBody).failsUnbound = true ∧
    (runSteps allTopLevelNames (fun _ => true) ["evidence", "report_format"]
      generateReportBody).failsUnbound = true ∧
    (runSteps allTopLevelNames (fun _ => true) ["state"]
      generateConsciousnessSectionBody).failsUnbound = true := by
  decide

/-- Claim C8: every method body is straight-line — no branch, no loop,
no library call — and evaluation is deterministic: two runs over equal
environments, equal attribute oracles and equal locals give equal
outcomes. -/
theorem claim_C8_straight_line_deterministic :
    allMethodBodies.all straightLine = true ∧
    allMethodBodies.all noLibCalls = true ∧
    ∀ (b : List Step) (e1 e2 l1 l2 : List String)
      (o1 o2 : String → Bool), b ∈ allMethodBodies →
      e1 = e2 → (∀ n, o1 n = o2 n) → l1 = l2 →
      runSteps e1 o1 l1 b = runSteps e2 o2 l2 b := by
  refine ⟨by decide, by decide, ?_⟩
  intro b e1 e2 l1 l2 o1 o2 _ he ho hl
  subst he hl
  have h : o1 = o2 := funext ho
  subst h
  rfl

/-- Claim C8, witnessed on `to_report` at the concrete environment. -/
theorem claim_C8_witness :
    toReportBody ∈ allMethodBodies ∧
    runSteps allTopLevelNames (fun _ => true) [] toReportBody =
      runSteps allTopLevelNames (fun _ => true) [] toReportBody :=
  ⟨by decide,
    claim_C8_straight_line_deterministic.2.2 toReportBody
      allTopLevelNames allTopLevelNames [] []
      (fun _ => true) (fun _ => true)
      (by decide) rfl (fun _ => rfl) rfl⟩

/-- Claim C9: `hashlib`, `json` and `time` are imported but never
referenced afterwards — no method body and no annotation looks any of
them up — and no body performs a library call, so every effect is an
attribute assignment on the objects the bodies touch. -/
theorem claim_C9_no_io :
    ("hashlib" ∈ allTopLevelNames ∧ "json" ∈ allTopLevelNames ∧
      "time" ∈ allTopLevelNames) ∧
    ("hashlib" ∉ allReferencedGlobals ∧ "json" ∉ allReferencedGlobals ∧
      "time" ∉ allReferencedGlobals) ∧
    allMethodBodies.all noLibCalls = true := by
  decide

/-- Claim C10: `__slots__` of `QuantumEvidence` is exactly its six field
names; a constructed instance holds exactly the six values passed, each
readable back unchanged, and `setattr` with any name outside the slot
list raises a missing-attribute error. -/
theorem claim_C10_slots_restrict_attributes (V : Type) (a b c d e f : V) :
    quantumEvidenceSlots = qeFieldNames ∧
    quantumEvidenceSlots = ["consciousness_state", "reality_gaps",
      "cognitive_contradictions", "quantum_certainty",
      "entanglement_correlation", "temporal_anomalies"] ∧
    (∃ obj, dataclassInit quantumEvidenceSlots qeFieldNames
        [a, b, c, d, e, f] = .ok obj ∧
      getattrObj obj "consciousness_state" = .ok a ∧
      getattrObj obj "reality_gaps" = .ok b ∧
      getattrObj obj "cognitive_contradictions" = .ok c ∧
      getattrObj obj "quantum_certainty" = .ok d ∧
      getattrObj obj "entanglement_correlation" = .ok e ∧
      getattrObj obj "temporal_anomalies" = .ok f) ∧
    ∀ (obj : List (String × V)) (n : String) (v : V),
      n ∉ quantumEvidenceSlots →
      setattrSlots quantumEvidenceSlots obj n v = .attributeError n := by
  refine ⟨by decide, by decide, ?_, ?_⟩
  · exact ⟨[("temporal_anomalies", f), ("entanglement_correlation", e),
      ("quantum_certainty", d), ("cognitive_contradictions", c),
      ("reality_gaps", b), ("consciousness_state", a)],
      rfl, rfl, rfl, rfl, rfl, rfl, rfl⟩
  · intro obj n v h
    unfold setattrSlots
    rw [if_neg h]

/-- Claim C10, witnessed: setting `extra_attribute` on an instance
raises a missing-attribute error. -/
theorem claim_C10_witness :
    "extra_attribute" ∉ quantumEvidenceSlots ∧
    setattrSlots quantumEvidenceSlots
      ([("consciousness_state", 1)] : List (String × Nat))
      "extra_attribute" 7 = .attributeError "extra_attribute" :=
  ⟨by decide,
    (claim_C10_slots_restrict_attributes Nat 1 2 3 4 5 6).2.2.2
      [("consciousness_state", 1)] "extra_attribute" 7 (by decide)⟩

end PyEvidence
